import Mathlib

/-!
Shallow embedding of the Growatt API client (`src/lib.rs`) — the
authenticated session manager and validated-request pipeline.

Modelling conventions:
* Timestamps (`chrono::DateTime<Utc>`) are integers (seconds); `Utc::now()`
  becomes an explicit `now : Int` argument of each operation that reads the
  clock.  `chrono::Duration::minutes m` becomes `m * 60` seconds.
* Network I/O is not performed; each operation that issues a request takes
  the outcome of that request as an argument (`NetOutcome` for requests whose
  JSON body is inspected, `Option Nat` for logout where only the HTTP status
  is inspected) and additionally returns the number of network requests it
  issued, so that "makes no network call" is a provable statement.
* `serde_json::Value` is modelled by `Json`; its number type distinguishes
  the three internal representations of `serde_json` (`PosInt`/`NegInt`/
  `Float`) because `Value::as_i64` treats them differently.  Float payloads
  are rationals (every finite `f64` is a rational; NaN/infinite payloads
  never influence the modelled code paths, which only ask `as_i64`).
* Fallible Rust code (`Result<T, GrowattError>`) becomes
  `Except GrowattError T`; the `?` operator becomes explicit propagation.
-/

namespace GrowattApi

/-- Number type of `serde_json`: `PosInt (u64)`, `NegInt (i64 < 0)`, `Float (f64)`. -/
inductive JNum where
  | posInt (n : Nat)
  | negInt (n : Int)
  | float (q : Rat)
deriving DecidableEq

/-- The JSON value type (`serde_json::Value`). -/
inductive Json where
  | null
  | bool (tf : Bool)
  | num (n : JNum)
  | str (text : String)
  | arr (items : List Json)
  | obj (entries : List (String × Json))

/-- `serde_json::Number::as_i64`: `Some` exactly for `NegInt` and for `PosInt`
values that fit in `i64`; always `None` for floats. -/
def JNum.asI64 : JNum → Option Int
  | .posInt n => if n ≤ 9223372036854775807 then some (n : Int) else none
  | .negInt n => some n
  | .float _ => none

/-- `Value::get(key)`: field lookup on objects, `None` on every other variant. -/
def Json.get (j : Json) (key : String) : Option Json :=
  match j with
  | .obj fields => fields.lookup key
  | _ => none

/-- `Value::as_i64`. -/
def Json.asI64 : Json → Option Int
  | .num n => n.asI64
  | _ => none

/-- `Value::as_str`. -/
def Json.asStr : Json → Option String
  | .str t => some t
  | _ => none

/-- `Value::is_null`. -/
def Json.isNull : Json → Bool
  | .null => true
  | _ => false

/-- `Value::is_object`. -/
def Json.isObject : Json → Bool
  | .obj _ => true
  | _ => false

/-- `Value::as_object().unwrap().is_empty()` (only ever called under `is_object`). -/
def Json.objIsEmpty : Json → Bool
  | .obj fields => fields.isEmpty
  | _ => false

/-- The error taxonomy `GrowattError` of `src/lib.rs`.  `requestError` covers
every `reqwest::Error` (transport failure, `error_for_status_ref`, body-read /
JSON-parse failure of `Response::json`), `jsonError` covers
`serde_json::Error` from `from_value`. -/
inductive GrowattError where
  | requestError
  | jsonError
  | authError (msg : String)
  | invalidResponse (msg : String)
  | notLoggedIn
deriving DecidableEq

/-- Decidable equality for `Except`, so that results of the modelled
operations can be compared by `decide`. -/
instance exceptDecEq {ε α : Type} [DecidableEq ε] [DecidableEq α] :
    DecidableEq (Except ε α) := fun a b =>
  match a, b with
  | .ok x, .ok y => decidable_of_iff (x = y) (by simp)
  | .error e, .error f => decidable_of_iff (e = f) (by simp)
  | .ok _, .error _ => isFalse (by simp)
  | .error _, .ok _ => isFalse (by simp)

/-- Outcome of an HTTP request whose JSON body the client inspects:
either some failure the `?` operators turn into `RequestError`
(transport error, non-2xx status, unparsable body), or a parsed JSON body. -/
inductive NetOutcome where
  | transportError
  | body (j : Json)

/-- `chrono::Duration::minutes`, in seconds. -/
def durationMinutes (m : Int) : Int := m * 60

/-- The client state (struct `Growatt`).  The `client : reqwest::Client`
field (connection pool + cookie jar) carries no session logic inspected by
any modelled operation and is omitted; every other field is kept. -/
structure Growatt where
  base_url : String
  username : Option String
  password : Option String
  is_logged_in : Bool
  session_expiry : Option Int
  session_duration : Int
  token : Option String
deriving DecidableEq

/-- `Growatt::new`. -/
def Growatt.new : Growatt where
  base_url := "https://server.growatt.com"
  username := none
  password := none
  is_logged_in := false
  session_expiry := none
  session_duration := durationMinutes 30
  token := none

/-- `Growatt::from_env`: starts from `new` and overrides each field for which
the corresponding environment variable is set.  `dur` is the parsed
`GROWATT_SESSION_DURATION`; `none` covers both an unset variable and a failed
`parse::<i64>` (either way the default is kept). -/
def Growatt.from_env (u p burl : Option String) (dur : Option Int) : Growatt :=
  let g := Growatt.new
  let g := match u with | some x => { g with username := some x } | none => g
  let g := match p with | some x => { g with password := some x } | none => g
  let g := match burl with | some x => { g with base_url := x } | none => g
  match dur with | some m => { g with session_duration := durationMinutes m } | none => g

/-- `Growatt::with_alternate_url`. -/
def Growatt.with_alternate_url (g : Growatt) : Growatt :=
  { g with base_url := "https://openapi.growatt.com" }

/-- `Growatt::with_session_duration`. -/
def Growatt.with_session_duration (g : Growatt) (minutes : Int) : Growatt :=
  { g with session_duration := durationMinutes minutes }

/-- `Growatt::get_token`. -/
def Growatt.get_token (g : Growatt) : Option String := g.token

/-- `Growatt::is_session_valid`: `Some expiry` set and `Utc::now() < expiry`. -/
def Growatt.is_session_valid (g : Growatt) (now : Int) : Bool :=
  match g.session_expiry with
  | some expiry => decide (now < expiry)
  | none => false

/-- `Growatt::login`.  The outgoing POST itself (URL `{base_url}/login`, form
fields `account`/`password`/`validateCode`/`isReadPact`/`passwordCrc` where
`passwordCrc = hash_password password`, 30 s timeout) is not modelled — only
its outcome `net`.  Returns (new state, result, number of network requests). -/
def Growatt.login (g : Growatt) (username password : String) (now : Int)
    (net : NetOutcome) : Growatt × Except GrowattError Bool × Nat :=
  if g.is_logged_in && g.is_session_valid now then
    (g, .ok true, 0)
  else
    let g := { g with username := some username, password := some password }
    match net with
    | .transportError => (g, .error .requestError, 1)
    | .body j =>
      match (j.get "result").bind Json.asI64 with
      | some result =>
        if result = 1 then
          let g := { g with
                     is_logged_in := true
                     session_expiry := some (now + g.session_duration) }
          let g := match (j.get "token").bind Json.asStr with
                   | some t => { g with token := some t }
                   | none => g
          (g, .ok true, 1)
        else
          let error_msg := ((j.get "msg").bind Json.asStr).getD "Unknown error"
          ({ g with is_logged_in := false, session_expiry := none },
           .error (.authError error_msg), 1)
      | none =>
        ({ g with is_logged_in := false, session_expiry := none },
         .error (.invalidResponse "Invalid response structure"), 1)

/-- `Growatt::ensure_session`. -/
def Growatt.ensure_session (g : Growatt) (now : Int) (net : NetOutcome) :
    Growatt × Except GrowattError Unit × Nat :=
  if !g.is_logged_in || !g.is_session_valid now then
    match g.username, g.password with
    | some username, some password =>
      let (g, r, n) := g.login username password now net
      match r with
      | .ok _ => (g, .ok (), n)
      | .error e => (g, .error e, n)
    | _, _ => (g, .error .notLoggedIn, 0)
  else
    (g, .ok (), 0)

/-- `Growatt::logout`.  `net = none` is a transport error of the GET
(propagated by `?`); `net = some status` is the HTTP status of the response
(no `error_for_status` is applied on this path). -/
def Growatt.logout (g : Growatt) (net : Option Nat) :
    Growatt × Except GrowattError Bool × Nat :=
  if !g.is_logged_in then
    (g, .ok false, 0)
  else
    match net with
    | none => (g, .error .requestError, 1)
    | some status =>
      if status = 302 then
        ({ g with is_logged_in := false, session_expiry := none }, .ok true, 1)
      else
        (g, .ok false, 1)

/-- `Growatt::check_login` (alias of `ensure_session`). -/
def Growatt.check_login (g : Growatt) (now : Int) (net : NetOutcome) :
    Growatt × Except GrowattError Unit × Nat :=
  g.ensure_session now net

/-- Struct `PlantData`: every field optional.  The four `Option<f64>` fields
keep the JSON number they were decoded from (`serde`'s number-to-f64
conversion accepts every JSON number). -/
structure PlantData where
  plant_name : Option String
  plant_id : Option String
  capacity : Option JNum
  today_energy : Option JNum
  total_energy : Option JNum
  current_power : Option JNum
deriving DecidableEq

/-- Decoding of one `Option<String>` field under serde's derived
`Deserialize`: a missing field and an explicit `null` give `None`, a string
gives `Some`, any other value is a type error (`serde_json::Error`). -/
def decOptStr (j : Json) (key : String) : Except GrowattError (Option String) :=
  match j.get key with
  | none => .ok none
  | some .null => .ok none
  | some (.str s) => .ok (some s)
  | some _ => .error .jsonError

/-- Decoding of one `Option<f64>` field under serde's derived `Deserialize`. -/
def decOptNum (j : Json) (key : String) : Except GrowattError (Option JNum) :=
  match j.get key with
  | none => .ok none
  | some .null => .ok none
  | some (.num n) => .ok (some n)
  | some _ => .error .jsonError

/-- `serde_json::from_value::<PlantData>` on a JSON object (unknown fields are
ignored, as serde does by default).  The derived `Deserialize` additionally
accepts a positional sequence for a struct; no modelled claim exercises that
corner, so non-object inputs are conservatively mapped to the decode error. -/
def PlantData.fromJson (j : Json) : Except GrowattError PlantData :=
  match j with
  | .obj _ => do
    let plant_name ← decOptStr j "plantName"
    let plant_id ← decOptStr j "plantId"
    let capacity ← decOptNum j "capacity"
    let today_energy ← decOptNum j "todayEnergy"
    let total_energy ← decOptNum j "totalEnergy"
    let current_power ← decOptNum j "currentPower"
    pure ⟨plant_name, plant_id, capacity, today_energy, total_energy, current_power⟩
  | _ => .error .jsonError

/-- Response handling of `Growatt::get_plant` after the body has been parsed:
the object-field (`obj`) unwrap strategy followed by the `PlantData` decode. -/
def getPlantUnwrap (body : Json) : Except GrowattError PlantData :=
  match body.get "obj" with
  | some o =>
    if o.isNull || (o.isObject && o.objIsEmpty) then
      .error (.invalidResponse "Empty response. Please ensure you are logged in.")
    else
      PlantData.fromJson o
  | none => .error (.invalidResponse "Invalid response structure")

/-- The shape every authenticated endpoint method shares: `check_login` first
(its error propagates through `?` before the endpoint's own request is
issued), then the endpoint's request, then the endpoint's response handling
`unwrap` on the parsed body.  `dataNet = none` is a request the `?` operators
turn into `RequestError` (transport failure, non-2xx, unparsable body). -/
def Growatt.authedCall {α : Type} (g : Growatt) (now : Int) (loginNet : NetOutcome)
    (dataNet : Option Json) (unwrap : Json → Except GrowattError α) :
    Growatt × Except GrowattError α × Nat :=
  let (g, r, n) := g.check_login now loginNet
  match r with
  | .error e => (g, .error e, n)
  | .ok _ =>
    match dataNet with
    | none => (g, .error .requestError, n + 1)
    | some body => (g, unwrap body, n + 1)

/-- `Growatt::get_plant`: the pipeline instantiated with the object-field
unwrap strategy and the `PlantData` decode. -/
def Growatt.get_plant (g : Growatt) (now : Int) (loginNet : NetOutcome)
    (dataNet : Option Json) : Growatt × Except GrowattError PlantData × Nat :=
  g.authedCall now loginNet dataNet getPlantUnwrap

/-! MD5 (RFC 1321), the digest the `md-5` crate computes for
`Growatt::hash_password`.  32-bit words are `Nat` reduced `% 2 ^ 32`. -/

/-- Bitwise complement within 32 bits. -/
def not32 (x : Nat) : Nat := 4294967295 ^^^ x

/-- 32-bit left rotation (`x` assumed `< 2 ^ 32`, `0 < c < 32`). -/
def rotl32 (x c : Nat) : Nat := ((x <<< c) + (x >>> (32 - c))) % 4294967296

/-- The per-round shift amounts of MD5. -/
def mdS : List Nat :=
  [7, 12, 17, 22, 7, 12, 17, 22, 7, 12, 17, 22, 7, 12, 17, 22,
   5, 9, 14, 20, 5, 9, 14, 20, 5, 9, 14, 20, 5, 9, 14, 20,
   4, 11, 16, 23, 4, 11, 16, 23, 4, 11, 16, 23, 4, 11, 16, 23,
   6, 10, 15, 21, 6, 10, 15, 21, 6, 10, 15, 21, 6, 10, 15, 21]

/-- The MD5 sine-derived constant table. -/
def mdK : List Nat :=
  [0xd76aa478, 0xe8c7b756, 0x242070db, 0xc1bdceee,
   0xf57c0faf, 0x4787c62a, 0xa8304613, 0xfd469501,
   0x698098d8, 0x8b44f7af, 0xffff5bb1, 0x895cd7be,
   0x6b901122, 0xfd987193, 0xa679438e, 0x49b40821,
   0xf61e2562, 0xc040b340, 0x265e5a51, 0xe9b6c7aa,
   0xd62f105d, 0x02441453, 0xd8a1e681, 0xe7d3fbc8,
   0x21e1cde6, 0xc33707d6, 0xf4d50d87, 0x455a14ed,
   0xa9e3e905, 0xfcefa3f8, 0x676f02d9, 0x8d2a4c8a,
   0xfffa3942, 0x8771f681, 0x6d9d6122, 0xfde5380c,
   0xa4beea44, 0x4bdecfa9, 0xf6bb4b60, 0xbebfbc70,
   0x289b7ec6, 0xeaa127fa, 0xd4ef3085, 0x04881d05,
   0xd9d4d039, 0xe6db99e5, 0x1fa27cf8, 0xc4ac5665,
   0xf4292244, 0x432aff97, 0xab9423a7, 0xfc93a039,
   0x655b59c3, 0x8f0ccc92, 0xffeff47d, 0x85845dd1,
   0x6fa87e4f, 0xfe2ce6e0, 0xa3014314, 0x4e0811a1,
   0xf7537e82, 0xbd3af235, 0x2ad7d2bb, 0xeb86d391]

/-- Little-endian 32-bit word `i` of a 64-byte chunk. -/
def leWord (chunk : List Nat) (i : Nat) : Nat :=
  chunk.getD (4 * i) 0 + 256 * chunk.getD (4 * i + 1) 0 +
    65536 * chunk.getD (4 * i + 2) 0 + 16777216 * chunk.getD (4 * i + 3) 0

/-- One of the 64 MD5 rounds on state `(a, b, c, d)`. -/
def md5Round (chunk : List Nat) (st : Nat × Nat × Nat × Nat) (i : Nat) :
    Nat × Nat × Nat × Nat :=
  let (a, b, c, d) := st
  let fg : Nat × Nat :=
    if i < 16 then ((b &&& c) ||| (not32 b &&& d), i)
    else if i < 32 then ((d &&& b) ||| (not32 d &&& c), (5 * i + 1) % 16)
    else if i < 48 then (b ^^^ c ^^^ d, (3 * i + 5) % 16)
    else (c ^^^ (b ||| not32 d), (7 * i) % 16)
  let f := (fg.1 + a + mdK.getD i 0 + leWord chunk fg.2) % 4294967296
  (d, (b + rotl32 f (mdS.getD i 0)) % 4294967296, b, c)

/-- The MD5 initialization vector. -/
def md5Init : Nat × Nat × Nat × Nat :=
  (0x67452301, 0xefcdab89, 0x98badcfe, 0x10325476)

/-- Digest one 64-byte chunk into the running state. -/
def md5Chunk (st : Nat × Nat × Nat × Nat) (chunk : List Nat) :
    Nat × Nat × Nat × Nat :=
  let r := (List.range 64).foldl (md5Round chunk) st
  ((st.1 + r.1) % 4294967296, (st.2.1 + r.2.1) % 4294967296,
   (st.2.2.1 + r.2.2.1) % 4294967296, (st.2.2.2 + r.2.2.2) % 4294967296)

/-- A 64-bit value as 8 little-endian bytes. -/
def le8 (n : Nat) : List Nat :=
  [n % 256, (n >>> 8) % 256, (n >>> 16) % 256, (n >>> 24) % 256,
   (n >>> 32) % 256, (n >>> 40) % 256, (n >>> 48) % 256, (n >>> 56) % 256]

/-- MD5 padding: `0x80`, zeros to 56 mod 64, then the bit length in 64 bits
little-endian. -/
def md5Pad (msg : List Nat) : List Nat :=
  msg ++ [128] ++ List.replicate ((119 - msg.length % 64) % 64) 0 ++
    le8 ((msg.length * 8) % 18446744073709551616)

/-- Structural worker for `chunksOf64`; `fuel` bounds the recursion depth and
never runs out when `fuel ≥ bs.length`, since each step drops 64 bytes. -/
def chunksOf64Go (fuel : Nat) (bs : List Nat) : List (List Nat) :=
  match fuel, bs with
  | _, [] => []
  | 0, _ => []
  | fuel + 1, bs => bs.take 64 :: chunksOf64Go fuel (bs.drop 64)

/-- Split a byte list into 64-byte chunks. -/
def chunksOf64 (bs : List Nat) : List (List Nat) := chunksOf64Go bs.length bs

/-- The low 32-bit word as 4 little-endian bytes. -/
def leBytes32 (w : Nat) : List Nat :=
  [w % 256, (w >>> 8) % 256, (w >>> 16) % 256, (w >>> 24) % 256]

/-- The 16-byte MD5 digest of a byte list. -/
def md5Bytes (msg : List Nat) : List Nat :=
  let st := (chunksOf64 (md5Pad msg)).foldl md5Chunk md5Init
  leBytes32 st.1 ++ leBytes32 st.2.1 ++ leBytes32 st.2.2.1 ++ leBytes32 st.2.2.2

/-- The lowercase hexadecimal alphabet (the hex crate's lookup table). -/
def hexChars : List Char := "0123456789abcdef".data

/-- Hex digit of a nibble. -/
def hexDigit (n : Nat) : Char := hexChars.getD n '0'

/-- `hex::encode` (lowercase): each byte `b` becomes the digits of `b >> 4`
and `b & 0xf`. -/
def hexEncode (bs : List Nat) : String :=
  String.mk (bs.flatMap fun b => [hexDigit (b >>> 4), hexDigit (b &&& 15)])

/-- UTF-8 encoding of one scalar value (what `str::as_bytes` exposes per char). -/
def utf8EncodeChar (c : Char) : List Nat :=
  let n := c.toNat
  if n < 128 then [n]
  else if n < 2048 then [192 + n / 64, 128 + n % 64]
  else if n < 65536 then [224 + n / 4096, 128 + (n / 64) % 64, 128 + n % 64]
  else [240 + n / 262144, 128 + (n / 4096) % 64, 128 + (n / 64) % 64, 128 + n % 64]

/-- `str::as_bytes`: the UTF-8 bytes of a string. -/
def stringUTF8 (s : String) : List Nat := s.data.flatMap utf8EncodeChar

/-- `Growatt::hash_password`: lowercase hex of the MD5 digest of the
password's UTF-8 bytes (`&self` is unused by the Rust method). -/
def Growatt.hash_password (_g : Growatt) (password : String) : String :=
  hexEncode (md5Bytes (stringUTF8 password))

/-! Session-state reachability: construction followed by any sequence of the
operations that mutate session state (`login`, `logout`, `ensure_session`),
instrumented with a ghost variable recording the `now` of the last successful
login. -/

/-- One session-mutating operation together with its clock reading and the
outcome of its network request. -/
inductive Op where
  | opLogin (u p : String) (now : Int) (net : NetOutcome)
  | opLogout (net : Option Nat)
  | opEnsure (now : Int) (net : NetOutcome)

/-- The state after one operation. -/
def applyOp (g : Growatt) : Op → Growatt
  | .opLogin u p now net => (g.login u p now net).1
  | .opLogout net => (g.logout net).1
  | .opEnsure now net => (g.ensure_session now net).1

/-- Ghost update for one `login` call: a successful login records its `now`;
a failed login clears the record; the fast path and a transport error leave
it alone (mirroring which branches touch `session_expiry`). -/
def loginGhost (g : Growatt) (now : Int) (net : NetOutcome) (h : Option Int) :
    Option Int :=
  if g.is_logged_in && g.is_session_valid now then h
  else
    match net with
    | .transportError => h
    | .body j =>
      match (j.get "result").bind Json.asI64 with
      | some result => if result = 1 then some now else none
      | none => h

/-- Ghost update for one operation. -/
def ghostOp (g : Growatt) (h : Option Int) : Op → Option Int
  | .opLogin _ _ now net => loginGhost g now net h
  | .opLogout _ => h
  | .opEnsure now net =>
    if !g.is_logged_in || !g.is_session_valid now then
      match g.username, g.password with
      | some _, some _ => loginGhost g now net h
      | _, _ => h
    else h

/-- States reachable from construction (`new` or `from_env`) by the
session-mutating operations, paired with the ghost last-successful-login
time. -/
inductive Reach : Growatt → Option Int → Prop
  | init : Reach Growatt.new none
  | fromEnv (u p burl : Option String) (dur : Option Int) :
      Reach (Growatt.from_env u p burl dur) none
  | step {g : Growatt} {h : Option Int} (op : Op) :
      Reach g h → Reach (applyOp g op) (ghostOp g h op)

/-- The session invariant: logged in implies the expiry is set, and set to
`n + session_duration` where `n` is the recorded time of the last successful
login. -/
def SessionInv (g : Growatt) (h : Option Int) : Prop :=
  g.is_logged_in = true →
    ∃ n, h = some n ∧ g.session_expiry = some (n + g.session_duration)

theorem from_env_fields (u p burl : Option String) (dur : Option Int) :
    (Growatt.from_env u p burl dur).is_logged_in = false ∧
      (Growatt.from_env u p burl dur).session_expiry = none := by
  cases u <;> cases p <;> cases burl <;> cases dur <;> exact ⟨rfl, rfl⟩

/-! Branch equations for `login`, `logout` and `ensure_session`. -/

theorem login_fast_eq (g : Growatt) (u p : String) (now : Int) (net : NetOutcome)
    (hc : (g.is_logged_in && g.is_session_valid now) = true) :
    g.login u p now net = (g, .ok true, 0) := by
  simp [Growatt.login, hc]

theorem login_transport_eq (g : Growatt) (u p : String) (now : Int)
    (hc : (g.is_logged_in && g.is_session_valid now) = false) :
    g.login u p now .transportError =
      ({ g with username := some u, password := some p },
       .error .requestError, 1) := by
  simp [Growatt.login, hc]

theorem login_success_eq (g : Growatt) (u p : String) (now : Int) (j : Json)
    (hc : (g.is_logged_in && g.is_session_valid now) = false)
    (hres : (j.get "result").bind Json.asI64 = some 1) :
    g.login u p now (.body j) =
      ({ g with username := some u, password := some p, is_logged_in := true,
                session_expiry := some (now + g.session_duration),
                token := ((j.get "token").bind Json.asStr).or g.token },
       .ok true, 1) := by
  simp only [Growatt.login, hc, Bool.false_eq_true, if_false, hres]
  cases htok : (j.get "token").bind Json.asStr <;> simp [htok, Option.or]

theorem login_auth_fail_eq (g : Growatt) (u p : String) (now : Int) (j : Json)
    (result : Int) (hc : (g.is_logged_in && g.is_session_valid now) = false)
    (hres : (j.get "result").bind Json.asI64 = some result) (hr : result ≠ 1) :
    g.login u p now (.body j) =
      ({ g with username := some u, password := some p, is_logged_in := false,
                session_expiry := none },
       .error (.authError (((j.get "msg").bind Json.asStr).getD "Unknown error")),
       1) := by
  simp [Growatt.login, hc, hres, hr]

theorem login_invalid_eq (g : Growatt) (u p : String) (now : Int) (j : Json)
    (hc : (g.is_logged_in && g.is_session_valid now) = false)
    (hres : (j.get "result").bind Json.asI64 = none) :
    g.login u p now (.body j) =
      ({ g with username := some u, password := some p, is_logged_in := false,
                session_expiry := none },
       .error (.invalidResponse "Invalid response structure"), 1) := by
  simp [Growatt.login, hc, hres]

theorem logout_noop_eq (g : Growatt) (net : Option Nat)
    (hl : g.is_logged_in = false) : g.logout net = (g, .ok false, 0) := by
  simp [Growatt.logout, hl]

theorem logout_transport_eq (g : Growatt) (hl : g.is_logged_in = true) :
    g.logout none = (g, .error .requestError, 1) := by
  simp [Growatt.logout, hl]

theorem logout_302_eq (g : Growatt) (hl : g.is_logged_in = true) :
    g.logout (some 302) =
      ({ g with is_logged_in := false, session_expiry := none }, .ok true, 1) := by
  simp [Growatt.logout, hl]

theorem logout_other_eq (g : Growatt) (status : Nat)
    (hl : g.is_logged_in = true) (hs : status ≠ 302) :
    g.logout (some status) = (g, .ok false, 1) := by
  simp [Growatt.logout, hl, hs]

theorem ensure_valid_eq (g : Growatt) (now : Int) (net : NetOutcome)
    (hc : (!g.is_logged_in || !g.is_session_valid now) = false) :
    g.ensure_session now net = (g, .ok (), 0) := by
  simp [Growatt.ensure_session, hc]

theorem ensure_no_creds_eq (g : Growatt) (now : Int) (net : NetOutcome)
    (hc : (!g.is_logged_in || !g.is_session_valid now) = true)
    (hcred : g.username = none ∨ g.password = none) :
    g.ensure_session now net = (g, .error .notLoggedIn, 0) := by
  rcases hcred with hu | hp
  · cases hp : g.password <;> simp [Growatt.ensure_session, hc, hu, hp]
  · cases hu : g.username <;> simp [Growatt.ensure_session, hc, hu, hp]

theorem ensure_login_eq (g : Growatt) (now : Int) (net : NetOutcome)
    (u p : String) (hc : (!g.is_logged_in || !g.is_session_valid now) = true)
    (hu : g.username = some u) (hp : g.password = some p) :
    g.ensure_session now net =
      ((g.login u p now net).1,
       ((g.login u p now net).2.1).map (fun _ => ()),
       (g.login u p now net).2.2) := by
  simp only [Growatt.ensure_session, hc, if_pos rfl, hu, hp]
  rcases hlr : g.login u p now net with ⟨g', r, n⟩
  cases r <;> simp [Except.map]

/-! Preservation of the session invariant. -/

theorem login_preserves_inv (g : Growatt) (h : Option Int) (u p : String)
    (now : Int) (net : NetOutcome) (hInv : SessionInv g h) :
    SessionInv (g.login u p now net).1 (loginGhost g now net h) := by
  by_cases hc : (g.is_logged_in && g.is_session_valid now) = true
  · rw [login_fast_eq g u p now net hc]
    simpa [loginGhost, hc] using hInv
  · rw [Bool.not_eq_true] at hc
    cases net with
    | transportError =>
      rw [login_transport_eq g u p now hc]
      intro hl
      simpa [loginGhost, hc] using hInv hl
    | body j =>
      cases hres : (j.get "result").bind Json.asI64 with
      | none =>
        rw [login_invalid_eq g u p now j hc hres]
        intro hl
        simp at hl
      | some result =>
        by_cases hr : result = 1
        · subst hr
          rw [login_success_eq g u p now j hc hres]
          intro _
          exact ⟨now, by simp [loginGhost, hc, hres], rfl⟩
        · rw [login_auth_fail_eq g u p now j result hc hres hr]
          intro hl
          simp at hl

theorem logout_preserves_inv (g : Growatt) (h : Option Int) (net : Option Nat)
    (hInv : SessionInv g h) : SessionInv (g.logout net).1 h := by
  by_cases hl : g.is_logged_in = true
  · cases net with
    | none => rw [logout_transport_eq g hl]; exact hInv
    | some status =>
      by_cases hs : status = 302
      · subst hs
        rw [logout_302_eq g hl]
        intro hfalse
        simp at hfalse
      · rw [logout_other_eq g status hl hs]; exact hInv
  · rw [Bool.not_eq_true] at hl
    rw [logout_noop_eq g net hl]
    exact hInv

theorem ensure_preserves_inv (g : Growatt) (h : Option Int) (now : Int)
    (net : NetOutcome) (hInv : SessionInv g h) :
    SessionInv (g.ensure_session now net).1
      (ghostOp g h (.opEnsure now net)) := by
  by_cases hc : (!g.is_logged_in || !g.is_session_valid now) = true
  · cases hu : g.username with
    | none =>
      rw [ensure_no_creds_eq g now net hc (Or.inl hu)]
      simpa [ghostOp, hc, hu] using hInv
    | some username =>
      cases hp : g.password with
      | none =>
        rw [ensure_no_creds_eq g now net hc (Or.inr hp)]
        simpa [ghostOp, hc, hu, hp] using hInv
      | some password =>
        rw [ensure_login_eq g now net username password hc hu hp]
        have h1 := login_preserves_inv g h username password now net hInv
        simpa [ghostOp, hc, hu, hp] using h1
  · rw [Bool.not_eq_true] at hc
    rw [ensure_valid_eq g now net hc]
    simpa [ghostOp, hc] using hInv

/-- C1: for every reachable client state, if the `is_logged_in` flag is true
then `session_expiry` is set, namely to `n + session_duration` where `n` is
the clock reading of the last successful login; the invariant holds at
construction and is preserved by `login` (all branches), `logout` and
`ensure_session`. -/
theorem session_expiry_set_when_logged_in (g : Growatt) (h : Option Int)
    (hr : Reach g h) (hl : g.is_logged_in = true) :
    ∃ n, h = some n ∧ g.session_expiry = some (n + g.session_duration) := by
  induction hr with
  | init => simp [Growatt.new] at hl
  | fromEnv u p burl dur =>
    rw [(from_env_fields u p burl dur).1] at hl
    simp at hl
  | @step g' h' op _ ih =>
    have hInv : SessionInv g' h' := fun hli => ih hli
    have : SessionInv (applyOp g' op) (ghostOp g' h' op) := by
      cases op with
      | opLogin u p now net => exact login_preserves_inv g' h' u p now net hInv
      | opLogout net => exact logout_preserves_inv g' h' net hInv
      | opEnsure now net => exact ensure_preserves_inv g' h' now net hInv
    exact this hl

/-- Witness for C1 at a concrete reachable state: a fresh client after one
successful login at time 0. -/
theorem session_expiry_set_when_logged_in_witness :
    ∃ n, ghostOp Growatt.new none
        (.opLogin "user" "pw" 0 (.body (.obj [("result", .num (.posInt 1))]))) =
          some n ∧
      (applyOp Growatt.new
        (.opLogin "user" "pw" 0
          (.body (.obj [("result", .num (.posInt 1))])))).session_expiry =
        some (n + (applyOp Growatt.new
          (.opLogin "user" "pw" 0
            (.body (.obj [("result", .num (.posInt 1))])))).session_duration) :=
  session_expiry_set_when_logged_in _ _ (Reach.step _ Reach.init) (by decide)

/-- C2: if the client is logged in and the session is currently valid,
`login` — with any username, password and request outcome — returns
`Ok(true)`, issues no network request, and leaves the entire client state
unchanged. -/
theorem login_fast_path_idempotent (g : Growatt) (u p : String) (now : Int)
    (net : NetOutcome) (hl : g.is_logged_in = true)
    (hv : g.is_session_valid now = true) :
    g.login u p now net = (g, .ok true, 0) :=
  login_fast_eq g u p now net (by simp [hl, hv])

/-- Witness for C2: a logged-in client with a future expiry. -/
theorem login_fast_path_idempotent_witness :
    ({ Growatt.new with is_logged_in := true, session_expiry := some 10 } :
        Growatt).login "u" "p" 0 .transportError =
      ({ Growatt.new with is_logged_in := true, session_expiry := some 10 },
       .ok true, 0) :=
  login_fast_path_idempotent _ "u" "p" 0 .transportError (by decide) (by decide)

/-- C3 counterexample: with a logged-in, still-valid session (reached by a
successful login as "alice" at time 0, re-invoked at time 5), an explicit
`login` with the new username "bob" returns on the fast path without storing
the credentials: the stored username is still "alice", not "bob". -/
theorem login_overwrites_credentials_cex :
    ((((Growatt.new.login "alice" "pa" 0
          (.body (.obj [("result", .num (.posInt 1))]))).1).login "bob" "pb" 5
        .transportError).1).username = some "alice" ∧
      ((((Growatt.new.login "alice" "pa" 0
          (.body (.obj [("result", .num (.posInt 1))]))).1).login "bob" "pb" 5
        .transportError).1).username ≠ some "bob" := by
  constructor <;> decide

/-- C3 amended: whenever `login` proceeds past the already-logged-in-and-valid
fast path, the stored credentials are overwritten with the arguments, on every
branch (transport error, success, and both failure branches); on the fast path
the stored credentials are untouched. -/
theorem login_stores_credentials (g : Growatt) (u p : String) (now : Int)
    (net : NetOutcome)
    (hc : (g.is_logged_in && g.is_session_valid now) = false) :
    (g.login u p now net).1.username = some u ∧
      (g.login u p now net).1.password = some p := by
  cases net with
  | transportError => rw [login_transport_eq g u p now hc]; exact ⟨rfl, rfl⟩
  | body j =>
    cases hres : (j.get "result").bind Json.asI64 with
    | none => rw [login_invalid_eq g u p now j hc hres]; exact ⟨rfl, rfl⟩
    | some result =>
      by_cases hr : result = 1
      · subst hr
        rw [login_success_eq g u p now j hc hres]
        exact ⟨rfl, rfl⟩
      · rw [login_auth_fail_eq g u p now j result hc hres hr]
        exact ⟨rfl, rfl⟩

/-- Witness for the amended C3: a fresh (logged-out) client stores the
arguments even when the login attempt fails at transport level. -/
theorem login_stores_credentials_witness :
    (Growatt.new.login "u" "p" 0 .transportError).1.username = some "u" ∧
      (Growatt.new.login "u" "p" 0 .transportError).1.password = some "p" :=
  login_stores_credentials Growatt.new "u" "p" 0 .transportError (by decide)

/-- C4 counterexample: a login body whose `result` is the JSON float `2.5` —
present and numeric, different from 1 — is answered with
`InvalidResponse "Invalid response structure"` and not with
`AuthenticationFailed` carrying the body's `msg` field, because the code
requires an i64-representable `result`; the error message also differs from
the one the claim states. -/
theorem login_numeric_result_cex :
    (Growatt.new.login "u" "p" 0
        (.body (.obj [("result", .num (.float (5 / 2))),
                      ("msg", .str "oops")]))).2.1 =
      .error (.invalidResponse "Invalid response structure") ∧
    (Growatt.new.login "u" "p" 0
        (.body (.obj [("result", .num (.float (5 / 2))),
                      ("msg", .str "oops")]))).2.1 ≠
      .error (.authError "oops") := by
  constructor <;> decide

/-- C4 amended: for a parsed login body, if `result` is present and is an
i64-representable integer other than 1, login clears `is_logged_in` and
`session_expiry` and fails with `AuthError` carrying the body's `msg` string
(default "Unknown error"); if `result` is absent or not an i64-representable
integer (including JSON floats and out-of-range values), login clears both
flags and fails with `InvalidResponse "Invalid response structure"`. -/
theorem login_failure_branches (g : Growatt) (u p : String) (now : Int)
    (j : Json) (hc : (g.is_logged_in && g.is_session_valid now) = false) :
    (∀ result : Int, (j.get "result").bind Json.asI64 = some result →
      result ≠ 1 →
      g.login u p now (.body j) =
        ({ g with username := some u, password := some p,
                  is_logged_in := false, session_expiry := none },
         .error (.authError
           (((j.get "msg").bind Json.asStr).getD "Unknown error")), 1)) ∧
    ((j.get "result").bind Json.asI64 = none →
      g.login u p now (.body j) =
        ({ g with username := some u, password := some p,
                  is_logged_in := false, session_expiry := none },
         .error (.invalidResponse "Invalid response structure"), 1)) :=
  ⟨fun result hres hr => login_auth_fail_eq g u p now j result hc hres hr,
   fun hres => login_invalid_eq g u p now j hc hres⟩

/-- Witness for the amended C4: `result = 0` with `msg = "bad credentials"`
on a fresh client. -/
theorem login_failure_branches_witness :
    Growatt.new.login "u" "p" 0
        (.body (.obj [("result", .num (.posInt 0)),
                      ("msg", .str "bad credentials")])) =
      ({ Growatt.new with username := some "u", password := some "p",
                          is_logged_in := false, session_expiry := none },
       .error (.authError "bad credentials"), 1) :=
  (login_failure_branches Growatt.new "u" "p" 0 _ (by decide)).1 0 (by decide)
    (by decide)

/-- C5: under the object-field unwrap strategy of `get_plant`, a parsed body
whose `obj` field is null or an empty object yields `InvalidResponse` (never
a successful empty result), a body without an `obj` field yields
`InvalidResponse` as well, and in a valid session the full `get_plant`
pipeline returns exactly this unwrap of the parsed body. -/
theorem get_plant_obj_sentinel (body : Json) :
    (body.get "obj" = some .null ∨ body.get "obj" = some (.obj []) →
      getPlantUnwrap body =
        .error (.invalidResponse
          "Empty response. Please ensure you are logged in.")) ∧
    (body.get "obj" = none →
      getPlantUnwrap body =
        .error (.invalidResponse "Invalid response structure")) ∧
    (∀ g : Growatt, ∀ now : Int, ∀ loginNet : NetOutcome,
      g.is_logged_in = true → g.is_session_valid now = true →
      (g.get_plant now loginNet (some body)).2.1 = getPlantUnwrap body) := by
  refine ⟨?_, ?_, ?_⟩
  · rintro (h | h) <;>
      simp [getPlantUnwrap, h, Json.isNull, Json.isObject, Json.objIsEmpty]
  · intro h
    simp [getPlantUnwrap, h]
  · intro g now loginNet hl hv
    have hc : (!g.is_logged_in || !g.is_session_valid now) = false := by
      simp [hl, hv]
    simp [Growatt.get_plant, Growatt.authedCall, Growatt.check_login,
      ensure_valid_eq g now loginNet hc]

/-- Witness for C5: `{"obj": null}` yields the empty-response error. -/
theorem get_plant_obj_sentinel_witness :
    getPlantUnwrap (.obj [("obj", .null)]) =
      .error (.invalidResponse
        "Empty response. Please ensure you are logged in.") :=
  (get_plant_obj_sentinel (.obj [("obj", .null)])).1 (Or.inl rfl)

/-- C6: with a missing (or invalid) session and a missing username or
password, `ensure_session` — and with it every authenticated operation, each
of which runs it as its first step — fails with `NotLoggedIn` without issuing
any network request and without changing the state. -/
theorem no_credentials_not_authenticated {α : Type} (g : Growatt) (now : Int)
    (loginNet : NetOutcome) (dataNet : Option Json)
    (unwrap : Json → Except GrowattError α)
    (hsess : g.is_logged_in = false ∨ g.is_session_valid now = false)
    (hcred : g.username = none ∨ g.password = none) :
    g.ensure_session now loginNet = (g, .error .notLoggedIn, 0) ∧
      g.authedCall now loginNet dataNet unwrap = (g, .error .notLoggedIn, 0) := by
  have hc : (!g.is_logged_in || !g.is_session_valid now) = true := by
    rcases hsess with h | h <;> simp [h]
  have h1 := ensure_no_creds_eq g now loginNet hc hcred
  refine ⟨h1, ?_⟩
  simp [Growatt.authedCall, Growatt.check_login, h1]

/-- Witness for C6: a fresh client calling the `get_plant` pipeline. -/
theorem no_credentials_not_authenticated_witness :
    Growatt.new.ensure_session 0 .transportError =
        (Growatt.new, .error .notLoggedIn, 0) ∧
      Growatt.new.authedCall 0 .transportError (some .null) getPlantUnwrap =
        (Growatt.new, .error .notLoggedIn, 0) :=
  no_credentials_not_authenticated Growatt.new 0 .transportError (some .null)
    getPlantUnwrap (Or.inl (by decide)) (Or.inl (by decide))

/-- C7: `logout` on a logged-out client returns `Ok(false)` with no network
call and unchanged state; on a logged-in client, HTTP status 302 is the sole
success signal: on 302 it returns `Ok(true)`, clears `is_logged_in` and
`session_expiry` but leaves `token` untouched; on any other status it returns
`Ok(false)` (not an error) and leaves the state unchanged, still logged in. -/
theorem logout_spec (g : Growatt) :
    (∀ net, g.is_logged_in = false → g.logout net = (g, .ok false, 0)) ∧
    (g.is_logged_in = true →
      g.logout (some 302) =
        ({ g with is_logged_in := false, session_expiry := none },
         .ok true, 1) ∧
      (g.logout (some 302)).1.token = g.token) ∧
    (∀ status, g.is_logged_in = true → status ≠ 302 →
      g.logout (some status) = (g, .ok false, 1)) := by
  refine ⟨fun net hl => logout_noop_eq g net hl, fun hl => ?_,
    fun status hl hs => logout_other_eq g status hl hs⟩
  rw [logout_302_eq g hl]
  exact ⟨rfl, rfl⟩

/-- Witness for C7: a logged-in client receiving a 302. -/
theorem logout_spec_witness :
    ({ Growatt.new with is_logged_in := true, session_expiry := some 10,
                        token := some "tok" } : Growatt).logout (some 302) =
        ({ { Growatt.new with is_logged_in := true, session_expiry := some 10,
                              token := some "tok" } with
            is_logged_in := false, session_expiry := none }, .ok true, 1) ∧
      (({ Growatt.new with is_logged_in := true, session_expiry := some 10,
                           token := some "tok" } : Growatt).logout
          (some 302)).1.token =
        ({ Growatt.new with is_logged_in := true, session_expiry := some 10,
                            token := some "tok" } : Growatt).token :=
  (logout_spec _).2.1 (by decide)

theorem md5Bytes_length (msg : List Nat) : (md5Bytes msg).length = 16 := by
  simp [md5Bytes, leBytes32]

theorem hexPairs_length (l : List Nat) :
    (l.flatMap fun b => [hexDigit (b >>> 4), hexDigit (b &&& 15)]).length =
      2 * l.length := by
  induction l with
  | nil => rfl
  | cons hd tl ih =>
    simp only [List.flatMap_cons, List.length_append, List.length_cons, ih,
      List.length_nil]
    omega

theorem hexDigit_mem (n : Nat) : hexDigit n ∈ hexChars := by
  by_cases h : n < 16
  · interval_cases n <;> decide
  · unfold hexDigit
    rw [List.getD_eq_default hexChars '0' (by simp [hexChars]; omega)]
    decide

theorem hexEncode_mem (bs : List Nat) (c : Char)
    (hc : c ∈ (hexEncode bs).data) : c ∈ hexChars := by
  have : c ∈ bs.flatMap fun b => [hexDigit (b >>> 4), hexDigit (b &&& 15)] := hc
  rw [List.mem_flatMap] at this
  obtain ⟨b, _, hmem⟩ := this
  simp only [List.mem_cons, List.not_mem_nil, or_false] at hmem
  rcases hmem with rfl | rfl <;> exact hexDigit_mem _

/-- C8: `hash_password` is a pure function of the password string; it matches
the lowercase-hex MD5 vector for "testpassword", and for every input string
(the empty string included) its output is exactly 32 characters, all drawn
from the lowercase hexadecimal alphabet. -/
theorem hash_password_spec :
    Growatt.new.hash_password "testpassword" =
        "e16b2ab8d12314bf4efbd6203906ea6c" ∧
      ∀ g : Growatt, ∀ s : String,
        (g.hash_password s).length = 32 ∧
          ∀ c ∈ (g.hash_password s).data, c ∈ hexChars := by
  refine ⟨by decide, fun g s => ⟨?_, fun c hc => hexEncode_mem _ c hc⟩⟩
  show (hexEncode (md5Bytes (stringUTF8 s))).length = 32
  have h1 : (hexEncode (md5Bytes (stringUTF8 s))).length =
      2 * (md5Bytes (stringUTF8 s)).length := hexPairs_length _
  rw [h1, md5Bytes_length]

/-- Witness for C8: the first character of the digest of "a" is a hex digit. -/
theorem hash_password_spec_witness : '0' ∈ hexChars :=
  (hash_password_spec.2 Growatt.new "a").2 '0' (by decide)

/-- C9: `is_session_valid` is true iff `session_expiry` is set and `now` is
strictly before it (hence false when unset, true for a future expiry, false
for a past one), and its value never depends on `is_logged_in`. -/
theorem is_session_valid_spec (g : Growatt) (now : Int) :
    (g.is_session_valid now = true ↔
      ∃ e, g.session_expiry = some e ∧ now < e) ∧
    ∀ b : Bool,
      ({ g with is_logged_in := b } : Growatt).is_session_valid now =
        g.is_session_valid now := by
  refine ⟨?_, fun b => rfl⟩
  cases he : g.session_expiry with
  | none => simp [Growatt.is_session_valid, he]
  | some e => simp [Growatt.is_session_valid, he]

/-- C10 counterexample: after a successful login as "alice" (which stored a
token), a silent re-login as "bob" at a time when the session has expired is
rejected by the portal; the failed login leaves the stored username "bob",
not the pre-call value "alice" — the stored credentials are not left
unchanged by a failed login. -/
theorem login_failure_frame_cex :
    ((((Growatt.new.login "alice" "pa" 0
          (.body (.obj [("result", .num (.posInt 1)),
                        ("token", .str "tok")]))).1).login "bob" "pb" 5000
        (.body (.obj [("result", .num (.posInt 0))]))).1).username =
      some "bob" ∧
    ((((Growatt.new.login "alice" "pa" 0
          (.body (.obj [("result", .num (.posInt 1)),
                        ("token", .str "tok")]))).1).login "bob" "pb" 5000
        (.body (.obj [("result", .num (.posInt 0))]))).1).username ≠
      ((Growatt.new.login "alice" "pa" 0
          (.body (.obj [("result", .num (.posInt 1)),
                        ("token", .str "tok")]))).1).username := by
  constructor <;> decide

/-- C10 amended: on every failed login (both failure branches), only
`is_logged_in` and `session_expiry` are cleared; the token, base URL and
session duration are unchanged — so `get_token` still returns the pre-call
token while logged out — and the stored username/password equal the
arguments of the failed call (the rejected credentials, which a subsequent
`ensure_session` silently retries); they coincide with the pre-call stored
credentials exactly when login was invoked with them, as in silent renewal. -/
theorem login_failure_frame (g : Growatt) (u p : String) (now : Int) (j : Json)
    (hc : (g.is_logged_in && g.is_session_valid now) = false)
    (hfail : (j.get "result").bind Json.asI64 = none ∨
      ∃ result, (j.get "result").bind Json.asI64 = some result ∧ result ≠ 1) :
    (g.login u p now (.body j)).1.token = g.token ∧
    (g.login u p now (.body j)).1.get_token = g.get_token ∧
    (g.login u p now (.body j)).1.username = some u ∧
    (g.login u p now (.body j)).1.password = some p ∧
    (g.login u p now (.body j)).1.base_url = g.base_url ∧
    (g.login u p now (.body j)).1.session_duration = g.session_duration ∧
    (g.login u p now (.body j)).1.is_logged_in = false ∧
    (g.login u p now (.body j)).1.session_expiry = none := by
  rcases hfail with hres | ⟨result, hres, hr⟩
  · rw [login_invalid_eq g u p now j hc hres]
    exact ⟨rfl, rfl, rfl, rfl, rfl, rfl, rfl, rfl⟩
  · rw [login_auth_fail_eq g u p now j result hc hres hr]
    exact ⟨rfl, rfl, rfl, rfl, rfl, rfl, rfl, rfl⟩

/-- Witness for the amended C10: a client with a stored token whose re-login
is rejected keeps the token while ending up logged out. -/
theorem login_failure_frame_witness :
    (({ Growatt.new with token := some "tok" } : Growatt).login "u" "p" 0
        (.body (.obj [("result", .num (.posInt 0))]))).1.token =
      ({ Growatt.new with token := some "tok" } : Growatt).token ∧
    (({ Growatt.new with token := some "tok" } : Growatt).login "u" "p" 0
        (.body (.obj [("result", .num (.posInt 0))]))).1.get_token =
      ({ Growatt.new with token := some "tok" } : Growatt).get_token ∧
    (({ Growatt.new with token := some "tok" } : Growatt).login "u" "p" 0
        (.body (.obj [("result", .num (.posInt 0))]))).1.username = some "u" ∧
    (({ Growatt.new with token := some "tok" } : Growatt).login "u" "p" 0
        (.body (.obj [("result", .num (.posInt 0))]))).1.password = some "p" ∧
    (({ Growatt.new with token := some "tok" } : Growatt).login "u" "p" 0
        (.body (.obj [("result", .num (.posInt 0))]))).1.base_url =
      ({ Growatt.new with token := some "tok" } : Growatt).base_url ∧
    (({ Growatt.new with token := some "tok" } : Growatt).login "u" "p" 0
        (.body (.obj [("result", .num (.posInt 0))]))).1.session_duration =
      ({ Growatt.new with token := some "tok" } : Growatt).session_duration ∧
    (({ Growatt.new with token := some "tok" } : Growatt).login "u" "p" 0
        (.body (.obj [("result", .num (.posInt 0))]))).1.is_logged_in = false ∧
    (({ Growatt.new with token := some "tok" } : Growatt).login "u" "p" 0
        (.body (.obj [("result", .num (.posInt 0))]))).1.session_expiry =
      none :=
  login_failure_frame _ "u" "p" 0 _ (by decide)
    (Or.inr ⟨0, by decide, by decide⟩)

end GrowattApi
